import Mathlib

/-!
Shallow embedding of the agentix-fastapi frontend core:
the session registry (SessionContext.tsx), the auth/identity session
(AuthContext), the axios request interceptor (lib/api.ts) and the
streaming-response consumer (ChatInterface handleSubmit).
Network responses are passed in as explicit inputs; issued requests are
returned so that claims about which calls go out can be stated.
-/

namespace AgentixModel

/-- A bearer token record as stored per session (interface Token). -/
structure Token where
  access_token : String
  token_type : String
  expires_at : String
deriving DecidableEq, Repr

/-- One chat session entry (interface SessionInfo). -/
structure SessionInfo where
  session_id : String
  name : String
  token : Token
deriving DecidableEq, Repr

/-- State owned by SessionProvider plus the localStorage keys it uses. -/
structure RegistryState where
  sessions : List SessionInfo
  activeSessionInfo : Option SessionInfo
  storedActiveSessionId : Option String
  storedActiveSessionInfo : Option SessionInfo
  isSessionLoading : Bool
deriving DecidableEq, Repr

/-- Initial SessionProvider state (empty list, loading true). -/
def initRegistry : RegistryState :=
  { sessions := [], activeSessionInfo := none, storedActiveSessionId := none,
    storedActiveSessionInfo := none, isSessionLoading := true }

/-- Outbound HTTP requests the registry can issue, recorded for claims
about which network calls happen. -/
inductive ApiRequest where
  | createSession : ApiRequest
  | listSessions : ApiRequest
  | renameReq : String → String → String → ApiRequest
  | deleteReq : String → String → ApiRequest
deriving DecidableEq, Repr

/-- JS String.prototype.startsWith, executably: the pattern is a prefix
of the character list. -/
def strStartsWith (s p : String) : Bool := p.data.isPrefixOf s.data

/-- JS String.prototype.trim, executably: drop whitespace from both ends
of the character list. -/
def strTrim (s : String) : String :=
  String.mk (((s.data.dropWhile Char.isWhitespace).reverse.dropWhile Char.isWhitespace).reverse)

/-- JS String.prototype.toLowerCase, executably, character by character. -/
def strToLower (s : String) : String := String.mk (s.data.map Char.toLower)

/-- JS truthiness guard on a nullable token string: null and the empty
string are both falsy. -/
def tokenPresent : Option String → Bool
  | some t => !(t = "")
  | none => false

/-- The TS idiom `name or Untitled Chat` : the empty string falls back to
the placeholder. -/
def defaultName (n : String) : String :=
  if n = "" then "Untitled Chat" else n

/-- switchActiveSession: pure local state change; persists the new active
pointer in localStorage, or clears both keys when given null. -/
def switchActiveSession (st : RegistryState) (si : Option SessionInfo) : RegistryState :=
  match si with
  | some s =>
      { st with activeSessionInfo := some s,
                storedActiveSessionId := some s.session_id,
                storedActiveSessionInfo := some s }
  | none =>
      { st with activeSessionInfo := none,
                storedActiveSessionId := none,
                storedActiveSessionInfo := none }

/-- createNewSessionFn. `createResult` is the server response to
POST /api/v1/auth/session (none means the request failed). Returns the
new state, the returned session (null on failure), and the requests issued. -/
def createNewSessionFn (userToken : Option String) (st : RegistryState)
    (createResult : Option SessionInfo) :
    RegistryState × Option SessionInfo × List ApiRequest :=
  if tokenPresent userToken then
    match createResult with
    | none => ({ st with isSessionLoading := false }, none, [ApiRequest.createSession])
    | some resp =>
        let newSession : SessionInfo := { resp with name := defaultName resp.name }
        let st1 := { st with sessions := st.sessions ++ [newSession] }
        let st2 := switchActiveSession st1 (some newSession)
        ({ st2 with isSessionLoading := false }, some newSession, [ApiRequest.createSession])
  else (st, none, [])

/-- fetchSessions. `fetchResult` is the server response to
GET /api/v1/auth/sessions (none means the request failed); `createResult`
feeds the chained self-healing creation when it fires. The local variable
fetchedSessions starts empty and is only assigned on success, and the
finally block chains createNewSessionFn whenever it is still empty. -/
def fetchSessions (userToken : Option String) (st : RegistryState)
    (fetchResult : Option (List SessionInfo)) (createResult : Option SessionInfo) :
    RegistryState × List ApiRequest :=
  if tokenPresent userToken then
    match fetchResult with
    | some data =>
        let fetchedSessions := data.map (fun s => { s with name := defaultName s.name })
        let st1 := { st with sessions := fetchedSessions }
        let fromStored : Option SessionInfo :=
          match st.storedActiveSessionId with
          | some lastId => fetchedSessions.find? (fun s => s.session_id = lastId)
          | none => none
        let sessionToActivate : Option SessionInfo :=
          match fromStored with
          | some s => some s
          | none => fetchedSessions.getLast?
        let st2 := switchActiveSession st1 sessionToActivate
        let st3 := { st2 with isSessionLoading := false }
        if fetchedSessions.isEmpty then
          let r := createNewSessionFn userToken st3 createResult
          (r.1, ApiRequest.listSessions :: r.2.2)
        else (st3, [ApiRequest.listSessions])
    | none =>
        let st1 := switchActiveSession { st with sessions := [] } none
        let st2 := { st1 with isSessionLoading := false }
        let r := createNewSessionFn userToken st2 createResult
        (r.1, ApiRequest.listSessions :: r.2.2)
  else
    let st1 := switchActiveSession { st with sessions := [] } none
    ({ st1 with isSessionLoading := false }, [])

/-- renameSession. `renameResult` is the server response to the PATCH
(none means failure). The guard requires the session to be found and to
carry a truthy access token; the stored name is always the sanitized
requested name, not the server echo. -/
def renameSession (st : RegistryState) (sessionId newName : String)
    (renameResult : Option SessionInfo) : RegistryState × List ApiRequest :=
  match st.sessions.find? (fun s => s.session_id = sessionId) with
  | none => (st, [])
  | some sessionToRename =>
      if sessionToRename.token.access_token = "" then (st, [])
      else
        let token := sessionToRename.token.access_token
        let sanitizedName := if strTrim newName = "" then "Untitled Chat" else strTrim newName
        let req := ApiRequest.renameReq sessionId token sanitizedName
        match renameResult with
        | none => (st, [req])
        | some resp =>
            let updatedSession : SessionInfo := { resp with name := sanitizedName }
            let updatedSessions := st.sessions.map
              (fun s => if s.session_id = sessionId then updatedSession else s)
            let st1 := { st with sessions := updatedSessions }
            let st2 :=
              match st1.activeSessionInfo with
              | some a =>
                  if a.session_id = sessionId then switchActiveSession st1 (some updatedSession)
                  else st1
              | none => st1
            (st2, [req])

/-- deleteSession. `deleteOk` says whether the DELETE succeeded;
`createResult` feeds the self-healing creation chained when the deleted
session was active and no session remains. -/
def deleteSession (userToken : Option String) (st : RegistryState) (sessionId : String)
    (deleteOk : Bool) (createResult : Option SessionInfo) :
    RegistryState × List ApiRequest :=
  match st.sessions.find? (fun s => s.session_id = sessionId) with
  | none => (st, [])
  | some sessionToDelete =>
      if sessionToDelete.token.access_token = "" then (st, [])
      else
        let req := ApiRequest.deleteReq sessionId sessionToDelete.token.access_token
        if deleteOk then
          let remainingSessions := st.sessions.filter (fun s => !(s.session_id = sessionId))
          let st1 := { st with sessions := remainingSessions }
          match st1.activeSessionInfo with
          | some a =>
              if a.session_id = sessionId then
                let sessionToActivate := remainingSessions.getLast?
                let st2 := switchActiveSession st1 sessionToActivate
                match sessionToActivate with
                | some _ => (st2, [req])
                | none =>
                    let r := createNewSessionFn userToken st2 createResult
                    (r.1, req :: r.2.2)
              else (st1, [req])
          | none => (st1, [req])
        else (st, [req])

/-- The identity profile (interface User), both fields nullable. -/
structure User where
  id : Option Int
  email : Option String
deriving DecidableEq, Repr

/-- The two localStorage keys owned by AuthProvider. Expiry timestamps
are modelled as integers (the Date value parsed from the stored string). -/
structure AuthStorage where
  authToken : Option String
  authTokenExpiry : Option Int
deriving DecidableEq, Repr

/-- State owned by AuthProvider plus its persisted storage. -/
structure AuthState where
  userToken : Option String
  user : Option User
  storage : AuthStorage
  isLoading : Bool
deriving DecidableEq, Repr

/-- Initial AuthProvider state. -/
def authInit : AuthState :=
  { userToken := none, user := none,
    storage := { authToken := none, authTokenExpiry := none }, isLoading := true }

/-- checkAuth at time `now`. `fetchResult` is the identity-endpoint
response for fetchUserDetails (none means the fetch failed, which clears
the user). Only a stored token whose expiry is strictly in the future is
adopted; an expired pair is purged; otherwise state ends logged out. -/
def checkAuth (st : AuthState) (now : Int) (fetchResult : Option User) : AuthState :=
  match st.storage.authToken, st.storage.authTokenExpiry with
  | some storedToken, some expiry =>
      if now < expiry then
        { st with userToken := some storedToken, user := fetchResult, isLoading := false }
      else
        { st with storage := { authToken := none, authTokenExpiry := none },
                  userToken := none, user := none, isLoading := false }
  | _, _ =>
      { st with userToken := none, user := none, isLoading := false }

/-- login: stores the pair, adopts the token, fetches the identity.
No expiry validation is performed here. -/
def login (st : AuthState) (newToken : String) (expiresAt : Int)
    (fetchResult : Option User) : AuthState :=
  { st with storage := { authToken := some newToken, authTokenExpiry := some expiresAt },
            userToken := some newToken, user := fetchResult }

/-- logout: clears token, identity and storage unconditionally. -/
def logout (st : AuthState) : AuthState :=
  { st with storage := { authToken := none, authTokenExpiry := none },
            userToken := none, user := none }

/-- The derived boolean: truthy userToken and non-null user. -/
def isAuthenticated (st : AuthState) : Bool :=
  tokenPresent st.userToken && st.user.isSome

/-- Whether the persisted token pair is present and unexpired at `now`
(the condition checkAuth tests before adopting it). -/
def storedTokenValid (st : AuthState) (now : Int) : Bool :=
  match st.storage.authToken, st.storage.authTokenExpiry with
  | some _, some expiry => now < expiry
  | _, _ => false

/-- Request headers, reduced to the fields the interceptor touches. -/
structure Headers where
  authorization : Option String
  contentType : Option String
deriving DecidableEq, Repr

/-- An axios request config as seen by the interceptor. -/
structure RequestConfig where
  url : String
  method : String
  headers : Headers
deriving DecidableEq, Repr

/-- The localStorage values the interceptor reads. -/
structure LocalTokens where
  activeSessionInfo : Option SessionInfo
  authToken : Option String
deriving DecidableEq, Repr

/-- The token the interceptor routing table selects for a request:
chatbot paths read the active-session token, the auth/session-management
paths (except PATCH) read the account token, anything else gets none. -/
def interceptorToken (store : LocalTokens) (config : RequestConfig) : Option String :=
  if strStartsWith config.url "/api/v1/chatbot" then
    store.activeSessionInfo.map (fun si => si.token.access_token)
  else if config.url = "/api/v1/auth/me"
      || strStartsWith config.url "/api/v1/auth/sessions"
      || config.url = "/api/v1/auth/session"
      || strStartsWith config.url "/api/v1/auth/session/" then
    if strToLower config.method = "patch" then none else store.authToken
  else none

/-- The interceptor itself: sets the Authorization header only when a
truthy token was selected and the caller header is falsy, that is absent
or the empty string, per the JS truthiness test in the guard; every
other part of the config passes through untouched. -/
def interceptor (store : LocalTokens) (config : RequestConfig) : RequestConfig :=
  match interceptorToken store config with
  | some t =>
      if t = "" then config
      else
        if tokenPresent config.headers.authorization then config
        else
          { config with headers :=
              { config.headers with authorization := some ("Bearer " ++ t) } }
  | none => config

/-- A chat message (role user, assistant or system). -/
structure Message where
  role : String
  content : String
deriving DecidableEq, Repr

/-- One parsed stream record (interface StreamChunk): content plus done. -/
structure StreamChunk where
  content : String
  done : Bool
deriving DecidableEq, Repr

/-- The setMessages updater run for one parsed record inside the read
loop: a done record is informational only (its content is not applied);
otherwise the content is appended to the trailing assistant placeholder. -/
def applyChunk (msgs : List Message) (chunk : StreamChunk) : List Message :=
  if chunk.done then msgs
  else
    match msgs.getLast? with
    | some lastMessage =>
        if lastMessage.role = "assistant" then
          msgs.dropLast ++ [{ lastMessage with content := lastMessage.content ++ chunk.content }]
        else msgs
    | none => msgs

/-- The read loop applied to the parsed records in arrival order. -/
def processFrames (msgs : List Message) (frames : List StreamChunk) : List Message :=
  frames.foldl applyChunk msgs

/-- The happy-path body of handleSubmit: append the user message and an
empty assistant placeholder, then consume the parsed stream records. -/
def handleSubmitStream (msgs : List Message) (input : String)
    (frames : List StreamChunk) : List Message :=
  processFrames (msgs ++ [{ role := "user", content := input },
                          { role := "assistant", content := "" }]) frames

/-- The catch branch of handleSubmit for a non-abort Error: replace an
empty trailing assistant placeholder with the error text, else append a
new assistant error message after the partial content. -/
def applyStreamError (msgs : List Message) (errorMessage : String) : List Message :=
  let errText := "Sorry, an error occurred: " ++ errorMessage
  match msgs.getLast? with
  | some lastMessage =>
      if lastMessage.role = "assistant" && lastMessage.content = "" then
        msgs.dropLast ++ [{ role := "assistant", content := errText }]
      else msgs ++ [{ role := "assistant", content := errText }]
  | none => msgs ++ [{ role := "assistant", content := errText }]

/-- A sample session token used by concrete instantiations. -/
def demoToken : Token :=
  { access_token := "sess", token_type := "bearer", expires_at := "2099-01-01" }

/-- A sample session used by concrete instantiations. -/
def demoSession : SessionInfo :=
  { session_id := "s9", name := "Demo", token := demoToken }

/-- A sample token record whose access token is empty (falsy in JS). -/
def emptyToken : Token :=
  { access_token := "", token_type := "bearer", expires_at := "2099-01-01" }

/-- A sample session whose entry carries no usable access token. -/
def tokenlessSession : SessionInfo :=
  { session_id := "s1", name := "Chat", token := emptyToken }

/-- A registry holding only the tokenless session. -/
def tokenlessRegistry : RegistryState :=
  { sessions := [tokenlessSession], activeSessionInfo := none,
    storedActiveSessionId := none, storedActiveSessionInfo := none,
    isSessionLoading := false }

/-- Sample localStorage contents for the interceptor. -/
def demoStore : LocalTokens :=
  { activeSessionInfo := some demoSession, authToken := some "acct" }

/-- A chatbot streaming request without caller credential. -/
def demoChatConfig : RequestConfig :=
  { url := "/api/v1/chatbot/chat/stream", method := "post",
    headers := { authorization := none, contentType := none } }

/-- The session-list request without caller credential. -/
def demoListConfig : RequestConfig :=
  { url := "/api/v1/auth/sessions", method := "get",
    headers := { authorization := none, contentType := none } }

/-- The session-list request with a caller-supplied credential. -/
def demoListConfigWithAuth : RequestConfig :=
  { url := "/api/v1/auth/sessions", method := "get",
    headers := { authorization := some "Bearer mine", contentType := none } }

/-- switchActiveSession never touches the session list. -/
theorem switchActiveSession_sessions (st : RegistryState) (si : Option SessionInfo) :
    (switchActiveSession st si).sessions = st.sessions := by
  cases si <;> rfl

/-- The header value the interceptor would attach for a selected token:
none when the token is absent or empty, the Bearer form otherwise. -/
def bearerOf : Option String → Option String
  | some t => if t = "" then none else some ("Bearer " ++ t)
  | none => none

/-- When the caller supplied no credential, the interceptor attaches
exactly the Bearer form of the routing-table token. -/
theorem interceptor_sets_bearer (store : LocalTokens) (config : RequestConfig)
    (h : config.headers.authorization = none) :
    (interceptor store config).headers.authorization =
      bearerOf (interceptorToken store config) := by
  unfold interceptor bearerOf
  cases htok : interceptorToken store config with
  | none => simpa using h
  | some t =>
      by_cases ht : t = ""
      · simp [ht, h]
      · simp [ht, h, tokenPresent]

/-- The session-list request whose caller set Authorization to the empty
string, an explicitly set but falsy header in JS. -/
def emptyAuthListConfig : RequestConfig :=
  { url := "/api/v1/auth/sessions", method := "get",
    headers := { authorization := some "", contentType := none } }

/-- Counterexample to claim C7 as stated: a caller-set Authorization
header holding the empty string is falsy under the JS truthiness guard,
so the interceptor overwrites it with the routed account token instead of
leaving the config unchanged. -/
theorem C7_counterexample :
    (interceptor demoStore emptyAuthListConfig).headers.authorization =
      some "Bearer acct" ∧
    ¬ (interceptor demoStore emptyAuthListConfig = emptyAuthListConfig) := by
  decide

/-- Claim C7 amended: when the caller has already set the Authorization
header to a truthy (non-empty) value, the interceptor returns the request
config completely unchanged, whatever the routing table would have
selected; an empty-string caller header counts as unset and may be
overwritten. -/
theorem C7_amended_nonempty_caller_auth_preserved (store : LocalTokens)
    (config : RequestConfig) (a : String)
    (h : config.headers.authorization = some a) (ha : ¬ (a = "")) :
    interceptor store config = config := by
  unfold interceptor
  cases htok : interceptorToken store config with
  | none => rfl
  | some t =>
      by_cases ht : t = ""
      · simp [ht]
      · simp [ht, h, tokenPresent, ha]

/-- Witness for C7 at a concrete session-list request carrying a truthy
caller credential. -/
theorem C7_witness :
    interceptor demoStore demoListConfigWithAuth = demoListConfigWithAuth :=
  C7_amended_nonempty_caller_auth_preserved demoStore demoListConfigWithAuth
    "Bearer mine" rfl (by decide)

/-- Claim C6: with no caller-supplied credential, a chatbot request is
given exactly the active-session token (or nothing when no active session
token exists) and never reads the account token, while the session-list
request is given exactly the account token (or nothing) and never a
session token. -/
theorem C6_token_routing (store : LocalTokens) (config : RequestConfig)
    (h : config.headers.authorization = none) :
    (strStartsWith config.url "/api/v1/chatbot" = true →
      (interceptor store config).headers.authorization =
        bearerOf (store.activeSessionInfo.map (fun si => si.token.access_token))) ∧
    (config.url = "/api/v1/auth/sessions" → strToLower config.method ≠ "patch" →
      (interceptor store config).headers.authorization = bearerOf store.authToken) := by
  constructor
  · intro hc
    rw [interceptor_sets_bearer store config h]
    unfold interceptorToken
    rw [hc]
    simp
  · intro hu hm
    rw [interceptor_sets_bearer store config h]
    unfold interceptorToken
    rw [hu]
    have h1 : (strStartsWith "/api/v1/auth/sessions" "/api/v1/chatbot") = false := by decide
    have h2 : (strStartsWith "/api/v1/auth/sessions" "/api/v1/auth/sessions") = true := by decide
    simp [h1, h2, hm]

/-- Witness for C6: a chatbot request receives the active-session token
and the session-list request receives the account token. -/
theorem C6_witness :
    (interceptor demoStore demoChatConfig).headers.authorization = some "Bearer sess" ∧
    (interceptor demoStore demoListConfig).headers.authorization = some "Bearer acct" := by
  refine ⟨((C6_token_routing demoStore demoChatConfig rfl).1 (by decide)).trans (by decide), ?_⟩
  exact ((C6_token_routing demoStore demoListConfig rfl).2 rfl (by decide)).trans (by decide)

/-- Guard condition under which rename and delete bail out: the id is not
in the list, or the entry carries a falsy access token. -/
def sessionTokenMissing (st : RegistryState) (sessionId : String) : Bool :=
  match st.sessions.find? (fun s => s.session_id = sessionId) with
  | none => true
  | some s => s.token.access_token = ""

/-- Claim C10: when the target id is absent from the list or its entry
has no access token, renameSession and deleteSession are silent no-ops:
the whole registry state (list, active pointer, persisted keys) is
unchanged and no request is issued. -/
theorem C10_missing_session_noop (st : RegistryState) (sessionId newName : String)
    (ut : Option String) (renameResult createResult : Option SessionInfo)
    (deleteOk : Bool) (h : sessionTokenMissing st sessionId = true) :
    renameSession st sessionId newName renameResult = (st, []) ∧
    deleteSession ut st sessionId deleteOk createResult = (st, []) := by
  unfold sessionTokenMissing at h
  unfold renameSession deleteSession
  cases hf : st.sessions.find? (fun s => s.session_id = sessionId) with
  | none => simp
  | some s =>
      rw [hf] at h
      simp only [decide_eq_true_eq] at h
      simp [h]

/-- Witness for C10 at a one-session registry whose entry has an empty
access token. -/
theorem C10_witness :
    renameSession tokenlessRegistry "s1" "NewName" none = (tokenlessRegistry, []) ∧
    deleteSession none tokenlessRegistry "s1" true none = (tokenlessRegistry, []) :=
  C10_missing_session_noop tokenlessRegistry "s1" "NewName" none none none true (by decide)

/-- Claim C8: evaluated at a failed session-list fetch with a valid
account token, the code still chains the self-healing creation request,
because the local fetchedSessions variable is still empty in the finally
block; the claim (and the comment in the code) say creation happens only
after a successful fetch returned zero sessions. -/
theorem C8_create_fired_on_fetch_failure :
    (fetchSessions (some "acct") initRegistry none none).2 =
      [ApiRequest.listSessions, ApiRequest.createSession] ∧
    (fetchSessions (some "acct") initRegistry none none).1.sessions = [] ∧
    (fetchSessions (some "acct") initRegistry none none).1.activeSessionInfo = none := by
  decide

/-- Replacing every entry carrying a given id by a record that carries
that id leaves that record as the find? hit, provided a hit existed. -/
theorem find_map_update (l : List SessionInfo) (sid : String) (u : SessionInfo)
    (hu : u.session_id = sid)
    (hex : ∃ x ∈ l, x.session_id = sid) :
    ((l.map (fun s => if s.session_id = sid then u else s)).find?
        (fun s => s.session_id = sid)) = some u := by
  induction l with
  | nil => simp at hex
  | cons a tl ih =>
      by_cases ha : a.session_id = sid
      · simp [ha, hu]
      · rw [List.map_cons, if_neg ha, List.find?_cons_of_neg]
        · apply ih
          rcases hex with ⟨x, hx, hxs⟩
          rcases List.mem_cons.mp hx with h | h
          · exact absurd (h ▸ hxs) ha
          · exact ⟨x, h, hxs⟩
        · simpa using ha

/-- After a successful rename of a found, token-carrying session, the
stored list is the original list with every entry of that id replaced by
the server record renamed to the sanitized requested name. -/
theorem renameSession_sessions (st : RegistryState) (sid newName : String)
    (resp s : SessionInfo)
    (hf : st.sessions.find? (fun x => x.session_id = sid) = some s)
    (htok : s.token.access_token ≠ "") :
    (renameSession st sid newName (some resp)).1.sessions =
      st.sessions.map (fun x => if x.session_id = sid then
        { resp with name := if strTrim newName = "" then "Untitled Chat" else strTrim newName }
      else x) := by
  simp only [renameSession, hf, if_neg htok]
  cases hact : st.activeSessionInfo with
  | none => rfl
  | some a =>
      by_cases hb : a.session_id = sid
      · simp only [if_pos hb, switchActiveSession_sessions]
      · simp only [if_neg hb]

/-- Claim C9: for a session id present in the registry with a usable
token, a successful rename with a name that trims to empty stores the
placeholder Untitled Chat as the display name of that session, whatever
name the server echoes back. -/
theorem C9_rename_whitespace_stores_placeholder (st : RegistryState)
    (sid newName : String) (resp s : SessionInfo)
    (hf : st.sessions.find? (fun x => x.session_id = sid) = some s)
    (htok : s.token.access_token ≠ "")
    (hname : strTrim newName = "")
    (hresp : resp.session_id = sid) :
    ((renameSession st sid newName (some resp)).1.sessions.find?
        (fun x => x.session_id = sid)).map SessionInfo.name =
      some "Untitled Chat" := by
  rw [renameSession_sessions st sid newName resp s hf htok]
  have hp := List.find?_some hf
  have hex : ∃ x ∈ st.sessions, x.session_id = sid :=
    ⟨s, List.mem_of_find?_eq_some hf, of_decide_eq_true hp⟩
  rw [find_map_update st.sessions sid
      { resp with name := if strTrim newName = "" then "Untitled Chat" else strTrim newName }
      hresp hex]
  simp [hname]

/-- Witness for C9: renaming the demo session with three spaces while
the server echoes a different name stores Untitled Chat. -/
theorem C9_witness :
    (((renameSession
          { sessions := [demoSession], activeSessionInfo := none,
            storedActiveSessionId := none, storedActiveSessionInfo := none,
            isSessionLoading := false }
          "s9" "   "
          (some { session_id := "s9", name := "SERVER ECHO", token := demoToken })).1.sessions.find?
        (fun x => x.session_id = "s9")).map SessionInfo.name) = some "Untitled Chat" :=
  C9_rename_whitespace_stores_placeholder _ "s9" "   " _ demoSession (by decide)
    (by decide) (by decide) (by decide)

/-- The identity state reached by logging in with a token whose stored
expiry (-1) already lies in the past at time 0, with the identity fetch
succeeding. -/
def expiredLoginState : AuthState :=
  login authInit "tok" (-1) (some { id := some 1, email := some "user@example.com" })

/-- Counterexample to claim C3 as stated: in the state reached by a
login that stored an already expired expiresAt, the persisted pair is
invalid at time 0, yet the derived isAuthenticated is true, because
neither login nor the derivation re-checks expiresAt. -/
theorem C3_counterexample :
    storedTokenValid expiredLoginState 0 = false ∧
    isAuthenticated expiredLoginState = true := by decide

/-- Claim C3 amended: after checkAuth runs at time now, if the persisted
account token was absent or its expiry not strictly in the future, the
derived isAuthenticated is false regardless of any cached identity and of
the identity-fetch outcome; expiry is validated only by checkAuth, not by
login and not continuously by the derivation. -/
theorem C3_amended_checkAuth_enforces_expiry (st : AuthState) (now : Int)
    (fetchResult : Option User) (h : storedTokenValid st now = false) :
    isAuthenticated (checkAuth st now fetchResult) = false := by
  unfold storedTokenValid at h
  unfold checkAuth
  cases ht : st.storage.authToken with
  | none => rfl
  | some tok =>
      cases he : st.storage.authTokenExpiry with
      | none => rfl
      | some e =>
          rw [ht, he] at h
          have h2 : ¬ (now < e) := of_decide_eq_false h
          simp [isAuthenticated, tokenPresent, h2]

/-- Witness for C3: checkAuth at time 0 on the expired-login state ends
unauthenticated even though the identity fetch would succeed. -/
theorem C3_witness :
    isAuthenticated (checkAuth expiredLoginState 0
        (some { id := some 1, email := some "user@example.com" })) = false :=
  C3_amended_checkAuth_enforces_expiry expiredLoginState 0
    (some { id := some 1, email := some "user@example.com" }) (by decide)

/-- A successful creation appends exactly the new session (name
defaulted) to the list. -/
theorem createNewSessionFn_sessions_some (t : String) (ht : ¬ (t = ""))
    (st : RegistryState) (r : SessionInfo) :
    (createNewSessionFn (some t) st (some r)).1.sessions =
      st.sessions ++ [{ r with name := defaultName r.name }] := by
  simp [createNewSessionFn, tokenPresent, ht, switchActiveSession_sessions]

/-- Counterexample to claim C1 as stated: with a valid account token,
when the fetch succeeds with zero sessions and the chained self-healing
creation request fails, fetchSessions settles with an empty list. -/
theorem C1_counterexample :
    ¬ (1 ≤ (fetchSessions (some "acct") initRegistry (some []) none).1.sessions.length) := by
  decide

/-- Claim C1 amended: for every fetchSessions call made with a valid
account token, provided the fetch succeeded with a nonempty list or the
chained self-healing creation request succeeds, the settled session list
has length at least 1. -/
theorem C1_amended_fetch_restores_nonempty (t : String) (ht : ¬ (t = ""))
    (st : RegistryState) (fetchResult : Option (List SessionInfo))
    (createResult : Option SessionInfo)
    (h : (∃ l, fetchResult = some l ∧ l ≠ []) ∨ createResult.isSome = true) :
    1 ≤ (fetchSessions (some t) st fetchResult createResult).1.sessions.length := by
  cases fetchResult with
  | none =>
      rcases h with ⟨l, hl, hl2⟩ | hc
      · exact absurd hl (by simp)
      · obtain ⟨r, hr⟩ := Option.isSome_iff_exists.mp hc
        subst hr
        simp [fetchSessions, tokenPresent, ht,
          createNewSessionFn_sessions_some t ht, switchActiveSession_sessions]
  | some data =>
      cases data with
      | nil =>
          rcases h with ⟨l, hl, hl2⟩ | hc
          · simp at hl
            exact absurd hl hl2
          · obtain ⟨r, hr⟩ := Option.isSome_iff_exists.mp hc
            subst hr
            simp [fetchSessions, tokenPresent, ht,
              createNewSessionFn_sessions_some t ht, switchActiveSession_sessions]
      | cons a as =>
          simp [fetchSessions, tokenPresent, ht, switchActiveSession_sessions]

/-- Witness for C1: a fetch returning zero sessions followed by a
successful self-healing creation leaves at least one session. -/
theorem C1_witness :
    1 ≤ (fetchSessions (some "acct") initRegistry (some [])
        (some demoSession)).1.sessions.length :=
  C1_amended_fetch_restores_nonempty "acct" (by decide) initRegistry (some [])
    (some demoSession) (Or.inr rfl)

/-- The token of the single session used in the C2 scenarios. -/
def soloToken : Token := { access_token := "tk1", token_type := "bearer", expires_at := "2099-01-01" }

/-- A registry entry that is the only session and is active. -/
def soloSession : SessionInfo := { session_id := "s1", name := "Chat", token := soloToken }

/-- A registry in which exactly one session exists and is active. -/
def soloRegistry : RegistryState :=
  { sessions := [soloSession], activeSessionInfo := some soloSession,
    storedActiveSessionId := some "s1", storedActiveSessionInfo := some soloSession,
    isSessionLoading := false }

/-- Counterexample to claim C2 as stated: deleting the only, active
session succeeds but the chained self-healing creation request fails, so
the registry settles with zero sessions and a null active pointer. -/
theorem C2_counterexample :
    (deleteSession (some "acct") soloRegistry "s1" true none).1.sessions = [] ∧
    (deleteSession (some "acct") soloRegistry "s1" true none).1.activeSessionInfo = none := by
  decide

/-- Claim C2 amended: from a registry whose only session is active,
deleteSession of that id, provided the chained self-healing creation
request (when reached) succeeds, settles with exactly one session in the
list and that session as the active one. -/
theorem C2_amended_delete_self_heals (ut : String) (hut : ¬ (ut = ""))
    (st : RegistryState) (s r : SessionInfo) (deleteOk : Bool)
    (h1 : st.sessions = [s]) (h2 : st.activeSessionInfo = some s) :
    (deleteSession (some ut) st s.session_id deleteOk (some r)).1.sessions.length = 1 ∧
    (deleteSession (some ut) st s.session_id deleteOk (some r)).1.activeSessionInfo =
      (deleteSession (some ut) st s.session_id deleteOk (some r)).1.sessions.head? := by
  by_cases htok : s.token.access_token = ""
  · have hres : deleteSession (some ut) st s.session_id deleteOk (some r) = (st, []) := by
      unfold deleteSession
      rw [h1]
      simp [htok]
    rw [hres, h1, h2]
    exact ⟨rfl, rfl⟩
  · cases deleteOk with
    | false =>
        have hres : deleteSession (some ut) st s.session_id false (some r) =
            (st, [ApiRequest.deleteReq s.session_id s.token.access_token]) := by
          unfold deleteSession
          rw [h1]
          simp [htok]
        rw [hres, h1, h2]
        exact ⟨rfl, rfl⟩
    | true =>
        unfold deleteSession
        rw [h1, h2]
        simp [htok, createNewSessionFn, tokenPresent, hut, switchActiveSession]

/-- Concatenation of the content fields of a frame list, in order. -/
def joinedContents : List StreamChunk → String
  | [] => ""
  | f :: fs => f.content ++ joinedContents fs

/-- Witness for C2: deleting the solo active session with a successful
chained creation leaves exactly one session, which is active. -/
theorem C2_witness :
    (deleteSession (some "acct") soloRegistry "s1" true (some demoSession)).1.sessions.length = 1 ∧
    (deleteSession (some "acct") soloRegistry "s1" true (some demoSession)).1.activeSessionInfo =
      (deleteSession (some "acct") soloRegistry "s1" true (some demoSession)).1.sessions.head? :=
  C2_amended_delete_self_heals "acct" (by decide) soloRegistry soloSession demoSession true rfl rfl

/-- Counterexample to claim C4 as stated: a well-formed frame with
done true and nonempty content is not appended - the assistant
placeholder stays empty instead of receiving the content. -/
theorem C4_counterexample :
    handleSubmitStream [] "hi" [{ content := "x", done := true }] =
      [{ role := "user", content := "hi" }, { role := "assistant", content := "" }] ∧
    ¬ (handleSubmitStream [] "hi" [{ content := "x", done := true }] =
        [{ role := "user", content := "hi" }, { role := "assistant", content := "x" }]) := by
  decide

/-- Claim C4 amended: every frame with done false has its content
appended to the assistant placeholder in arrival order; frames with done
true are skipped entirely (content discarded). In particular the frames
Hel then lo, both with done false, yield exactly Hello. -/
theorem C4_amended_content_append_order (pre : List Message) (lastContent : String)
    (frames : List StreamChunk) (hall : ∀ f ∈ frames, f.done = false) :
    processFrames (pre ++ [{ role := "assistant", content := lastContent }]) frames =
      pre ++ [{ role := "assistant", content := lastContent ++ joinedContents frames }] := by
  induction frames generalizing lastContent with
  | nil => simp [processFrames, joinedContents]
  | cons f fs ih =>
      have hf : f.done = false := hall f (by simp)
      have hrest : ∀ g ∈ fs, g.done = false := fun g hg => hall g (by simp [hg])
      have hstep :
          applyChunk (pre ++ [{ role := "assistant", content := lastContent }]) f =
            pre ++ [{ role := "assistant", content := lastContent ++ f.content }] := by
        simp [applyChunk, hf, List.getLast?_concat, List.dropLast_concat]
      calc processFrames (pre ++ [{ role := "assistant", content := lastContent }]) (f :: fs)
          = processFrames (pre ++ [{ role := "assistant", content := lastContent ++ f.content }]) fs := by
            simp [processFrames, hstep]
        _ = pre ++ [{ role := "assistant", content := (lastContent ++ f.content) ++ joinedContents fs }] :=
            ih (lastContent ++ f.content) hrest
        _ = pre ++ [{ role := "assistant", content := lastContent ++ joinedContents (f :: fs) }] := by
            rw [String.append_assoc]
            rfl

/-- Witness for C4: the frames Hel and lo with done false produce the
assistant content Hello. -/
theorem C4_witness :
    processFrames [{ role := "user", content := "hi" }, { role := "assistant", content := "" }]
        [{ content := "Hel", done := false }, { content := "lo", done := false }] =
      [{ role := "user", content := "hi" }, { role := "assistant", content := "Hello" }] :=
  (C4_amended_content_append_order [{ role := "user", content := "hi" }] ""
      [{ content := "Hel", done := false }, { content := "lo", done := false }]
      (by decide)).trans (by decide)

/-- Counterexample to claim C5 as stated: with partial content already
present, the error is appended as a new assistant message (list grows to
length 3); no suffix is appended to the placeholder itself. -/
theorem C5_counterexample :
    applyStreamError [{ role := "user", content := "q" },
        { role := "assistant", content := "Hi" }] "boom" =
      [{ role := "user", content := "q" }, { role := "assistant", content := "Hi" },
        { role := "assistant", content := "Sorry, an error occurred: boom" }] ∧
    ¬ ((applyStreamError [{ role := "user", content := "q" },
        { role := "assistant", content := "Hi" }] "boom").length = 2) := by
  decide

/-- Claim C5 amended: on a non-abort stream error, an empty assistant
placeholder is replaced by the user-visible error message; a placeholder
holding partial content is kept unchanged and a separate assistant error
message is appended after it, so the partial answer is never discarded
and the error is surfaced only in the message list. -/
theorem C5_amended_error_surfaced_in_list (pre : List Message)
    (partialContent err : String) (hp : ¬ (partialContent = "")) :
    (applyStreamError (pre ++ [{ role := "assistant", content := "" }]) err =
      pre ++ [{ role := "assistant", content := "Sorry, an error occurred: " ++ err }]) ∧
    (applyStreamError (pre ++ [{ role := "assistant", content := partialContent }]) err =
      pre ++ [{ role := "assistant", content := partialContent },
        { role := "assistant", content := "Sorry, an error occurred: " ++ err }]) := by
  constructor
  · simp [applyStreamError, List.getLast?_concat, List.dropLast_concat]
  · simp [applyStreamError, List.getLast?_concat, hp]

/-- Witness for C5: partial content Hi with error boom keeps the
partial message and appends the error message after it. -/
theorem C5_witness :
    applyStreamError [{ role := "user", content := "q" },
        { role := "assistant", content := "Hi" }] "boom" =
      [{ role := "user", content := "q" }, { role := "assistant", content := "Hi" },
        { role := "assistant", content := "Sorry, an error occurred: boom" }] :=
  ((C5_amended_error_surfaced_in_list [{ role := "user", content := "q" }] "Hi" "boom"
      (by decide)).2).trans (by decide)

end AgentixModel






